import Mathlib

set_option maxHeartbeats 1000000

/-!
Shallow embedding of the entropy-based task-inference core of the
Hyper_IBP_CL repository, translated from `src/entropy.py` and
`src/VanillaNets/AlexNet.py`, together with proofs about it.

Tensors are embedded as total functions from natural-number indices to the
reals, with the relevant extent passed explicitly; the machine-float
arithmetic of the source is modelled by exact real (respectively rational)
arithmetic.  The class-translation tables live in the `FeCAM` module of the
repository, which is not part of `src/`; those two functions are modelled
from the specification and are marked as such in their doc comments.
-/

/-- First-minimum tracker underlying `torch.argmin` on a one-dimensional
tensor: given the head element and the tail of a list, return the minimum
value together with the index of its first occurrence.  The strict `<` in
the guard keeps the earliest occurrence on ties. -/
def torchMinIdx {α : Type} [LinearOrder α] : α → List α → α × ℕ
  | x, [] => (x, 0)
  | x, y :: ys =>
    if (torchMinIdx y ys).1 < x then
      ((torchMinIdx y ys).1, (torchMinIdx y ys).2 + 1)
    else (x, 0)

/-- `torch.argmin` on a one-dimensional tensor: index of the first minimal
value (0 on the empty list, where torch itself would reject the call). -/
def torchArgmin {α : Type} [LinearOrder α] : List α → ℕ
  | [] => 0
  | x :: xs => (torchMinIdx x xs).2

/-- First-maximum tracker underlying `torch.argmax`, dual to `torchMinIdx`. -/
def torchMaxIdx {α : Type} [LinearOrder α] : α → List α → α × ℕ
  | x, [] => (x, 0)
  | x, y :: ys =>
    if x < (torchMaxIdx y ys).1 then
      ((torchMaxIdx y ys).1, (torchMaxIdx y ys).2 + 1)
    else (x, 0)

/-- `torch.argmax` on a one-dimensional tensor: index of the first maximal
value (0 on the empty list). -/
def torchArgmax {α : Type} [LinearOrder α] : List α → ℕ
  | [] => 0
  | x :: xs => (torchMaxIdx x xs).2

/-- `torch.nn.functional.softmax` along the last axis of a vector of length
`n`: entry `i` is `exp (x i)` normalised by the sum of the exponentials. -/
noncomputable def softmax (n : ℕ) (x : ℕ → ℝ) (i : ℕ) : ℝ :=
  Real.exp (x i) / ∑ j ∈ Finset.range n, Real.exp (x j)

/-- The per-task uncertainty score of `get_task_and_class_prediction_based_on_logits`
(`src/entropy.py`, lines 53-69).  `slice slot i` is entry `i` of the
`slot`-th row of one task's `(3, num_outputs)` logits slice, `slot = 0, 1, 2`
being the lower, middle and upper logits.  The score is
`-1 * sum(factor * softmax(middle) * log(softmax(middle)))`, with
`factor = 1.0` in vanilla mode and
`factor = 1 / (0.0001 + |upper - lower|)` elementwise otherwise. -/
noncomputable def taskEntropy (n : ℕ) (slice : ℕ → ℕ → ℝ) (vanilla : Bool) : ℝ :=
  -1 * ∑ i ∈ Finset.range n,
    (if vanilla then (1 : ℝ) else 1 / (0.0001 + |slice 2 i - slice 0 i|)) *
      softmax n (slice 1) i * Real.log (softmax n (slice 1) i)

/-- The Uncertainty Scorer exactly as the specification words it (section 4.3):
`p = softmax(middle_logits)`, `factor = 1 / (eps + |upper - lower|)`
elementwise with `eps = 1e-4`, result `-sum(factor * p * log(p))`. -/
noncomputable def uncertainty_score_spec (n : ℕ) (lower middle upper : ℕ → ℝ) : ℝ :=
  -(∑ i ∈ Finset.range n,
      (1 / (1e-4 + |upper i - lower i|)) * softmax n middle i *
        Real.log (softmax n middle i))

/-- Plain Shannon entropy of the middle-logit softmax, as the specification
words the vanilla mode of the Uncertainty Scorer. -/
noncomputable def shannon_entropy_spec (n : ℕ) (middle : ℕ → ℝ) : ℝ :=
  -(∑ i ∈ Finset.range n, softmax n middle i * Real.log (softmax n middle i))

/-- The three-class middle-logit vector `[2, 0, 0]` of the specification's
hand-computed vanilla-entropy example. -/
def example_middle_logits : ℕ → ℝ := fun i => if i = 0 then 2 else 0

/-- A `(3, num_outputs)` logits slice whose middle row is `[2, 0, 0]` and
whose lower and upper rows are zero (they are ignored in vanilla mode). -/
def example_slice : ℕ → ℕ → ℝ := fun slot i =>
  if slot = 1 then example_middle_logits i else 0

/-- Claim C1: in interval (non-vanilla) mode, the uncertainty score computed
by `src/entropy.py` agrees, for every `(3, num_outputs)` task-logits slice,
with the specification's formula `-sum(factor * p * log(p))` where
`p = softmax(middle_logits)` (slot 1) and
`factor = 1 / (1e-4 + |upper - lower|)` is computed elementwise from
slots 2 and 0. -/
theorem interval_score_matches_spec (n : ℕ) (slice : ℕ → ℕ → ℝ) :
    taskEntropy n slice false =
      uncertainty_score_spec n (slice 0) (slice 1) (slice 2) := by
  unfold taskEntropy uncertainty_score_spec
  rw [neg_one_mul]
  simp only [Bool.false_eq_true, if_false]

/-- Claim C5: if the interval collapses to a point (lower and upper rows both
equal to the middle row), the interval-mode score is exactly `1 / eps` times
the vanilla-mode score, `eps = 1e-4`. -/
theorem collapsed_interval_scaling (n : ℕ) (slice : ℕ → ℕ → ℝ)
    (h0 : ∀ i, slice 0 i = slice 1 i) (h2 : ∀ i, slice 2 i = slice 1 i) :
    taskEntropy n slice false = (1 / (1e-4 : ℝ)) * taskEntropy n slice true := by
  unfold taskEntropy
  have hterm : ∀ i ∈ Finset.range n,
      (if false then (1 : ℝ) else 1 / (0.0001 + |slice 2 i - slice 0 i|)) *
          softmax n (slice 1) i * Real.log (softmax n (slice 1) i)
        = (1 / (1e-4 : ℝ)) *
            ((if true then (1 : ℝ) else 1 / (0.0001 + |slice 2 i - slice 0 i|)) *
              softmax n (slice 1) i * Real.log (softmax n (slice 1) i)) := by
    intro i _
    have hz : slice 2 i - slice 0 i = 0 := by rw [h0 i, h2 i, sub_self]
    rw [hz]
    norm_num [mul_assoc]
  rw [Finset.sum_congr rfl hterm, ← Finset.mul_sum]
  ring

/-- Witness for claim C5 at the concrete all-zero slice with two outputs. -/
theorem collapsed_interval_scaling_witness :
    taskEntropy 2 (fun _ _ => 0) false =
      (1 / (1e-4 : ℝ)) * taskEntropy 2 (fun _ _ => 0) true :=
  collapsed_interval_scaling 2 (fun _ _ => 0) (fun _ => rfl) (fun _ => rfl)

/-- Every softmax entry is non-negative. -/
lemma softmax_nonneg (n : ℕ) (x : ℕ → ℝ) (i : ℕ) : 0 ≤ softmax n x i := by
  unfold softmax
  positivity

/-- For a non-empty output axis every softmax entry of this exact-real
model is strictly positive: the numerator is an exponential and the
denominator a non-empty sum of exponentials.  The float `F.softmax` of the
source can underflow an entry to exactly zero, which this exact-real model
cannot capture. -/
lemma softmax_pos (n : ℕ) (x : ℕ → ℝ) (i : ℕ) (hn : 0 < n) :
    0 < softmax n x i := by
  unfold softmax
  refine div_pos (Real.exp_pos _) ?_
  exact Finset.sum_pos (fun j _ => Real.exp_pos _)
    (Finset.nonempty_range_iff.mpr hn.ne')

/-- Each in-range softmax entry is at most one. -/
lemma softmax_le_one (n : ℕ) (x : ℕ → ℝ) (i : ℕ) (hi : i < n) :
    softmax n x i ≤ 1 := by
  unfold softmax
  have hpos : 0 < ∑ j ∈ Finset.range n, Real.exp (x j) :=
    Finset.sum_pos (fun j _ => Real.exp_pos _) ⟨i, Finset.mem_range.mpr hi⟩
  rw [div_le_one hpos]
  exact Finset.single_le_sum (fun j _ => (Real.exp_pos (x j)).le)
    (Finset.mem_range.mpr hi)

/-- In the exact-real model the uncertainty score is non-negative in both
modes: the factor is non-negative, each softmax entry lies in `(0, 1]`, so
every summand `factor * p * log p` is non-positive.  This does not extend
to the source's float semantics, where an underflowed softmax entry feeds
the unguarded `torch.log` and the sum becomes NaN. -/
lemma taskEntropy_nonneg (n : ℕ) (slice : ℕ → ℕ → ℝ) (vanilla : Bool) :
    0 ≤ taskEntropy n slice vanilla := by
  unfold taskEntropy
  rw [neg_one_mul, neg_nonneg]
  refine Finset.sum_nonpos (fun j hj => ?_)
  have hc : 0 ≤ (if vanilla then (1 : ℝ)
      else 1 / (0.0001 + |slice 2 j - slice 0 j|)) := by
    split <;> positivity
  have hp : 0 ≤ softmax n (slice 1) j := softmax_nonneg n (slice 1) j
  have hl : Real.log (softmax n (slice 1) j) ≤ 0 :=
    Real.log_nonpos hp
      (softmax_le_one n (slice 1) j (Finset.mem_range.mp hj))
  exact mul_nonpos_of_nonneg_of_nonpos (mul_nonneg hc hp) hl

/-- In vanilla mode the score is the plain Shannon entropy of the
middle-logit softmax (the factor reduces to the scalar `1.0`). -/
lemma vanilla_score_eq_shannon (n : ℕ) (slice : ℕ → ℕ → ℝ) :
    taskEntropy n slice true = shannon_entropy_spec n (slice 1) := by
  unfold taskEntropy shannon_entropy_spec
  rw [neg_one_mul]
  congr 1
  refine Finset.sum_congr rfl (fun i _ => ?_)
  rw [if_pos rfl, one_mul]

/-- The softmax denominator of the `[2, 0, 0]` example. -/
lemma sum_exp_example :
    ∑ j ∈ Finset.range 3, Real.exp (example_middle_logits j)
      = Real.exp 2 + 2 := by
  rw [Finset.sum_range_succ, Finset.sum_range_succ, Finset.sum_range_one]
  unfold example_middle_logits
  norm_num [Real.exp_zero]
  ring

/-- Closed form of the vanilla score on middle logits `[2, 0, 0]`:
`log (e^2 + 2) - 2 e^2 / (e^2 + 2)`. -/
lemma example_entropy_closed :
    taskEntropy 3 example_slice true =
      Real.log (Real.exp 2 + 2) - 2 * Real.exp 2 / (Real.exp 2 + 2) := by
  have hs : (0 : ℝ) < Real.exp 2 + 2 := by positivity
  have hmid : example_slice 1 = example_middle_logits := by
    funext i; simp [example_slice]
  have hp : ∀ i, softmax 3 (example_slice 1) i
      = Real.exp (example_middle_logits i) / (Real.exp 2 + 2) := by
    intro i
    unfold softmax
    rw [hmid, sum_exp_example]
  have hp0 : softmax 3 (example_slice 1) 0
      = Real.exp 2 / (Real.exp 2 + 2) := by
    rw [hp]; norm_num [example_middle_logits]
  have hp1 : softmax 3 (example_slice 1) 1 = 1 / (Real.exp 2 + 2) := by
    rw [hp]; norm_num [example_middle_logits, Real.exp_zero]
  have hp2 : softmax 3 (example_slice 1) 2 = 1 / (Real.exp 2 + 2) := by
    rw [hp]; norm_num [example_middle_logits, Real.exp_zero]
  unfold taskEntropy
  rw [Finset.sum_range_succ, Finset.sum_range_succ, Finset.sum_range_one]
  simp only [eq_self_iff_true, if_true, one_mul]
  rw [hp0, hp1, hp2]
  rw [Real.log_div (Real.exp_ne_zero 2) hs.ne', Real.log_exp, one_div,
    Real.log_inv]
  field_simp
  ring

/-- Rational lower bound on `e^2`, from the nine-digit bounds on `e`. -/
lemma exp_two_gt : (7.38905609 : ℝ) < Real.exp 2 := by
  have h2 : Real.exp 2 = Real.exp 1 * Real.exp 1 := by
    rw [← Real.exp_add]; norm_num
  nlinarith [Real.exp_one_gt_d9, Real.exp_pos 1]

/-- Rational upper bound on `e^2`, from the nine-digit bounds on `e`. -/
lemma exp_two_lt : Real.exp 2 < 7.38905611 := by
  have h2 : Real.exp 2 = Real.exp 1 * Real.exp 1 := by
    rw [← Real.exp_add]; norm_num
  nlinarith [Real.exp_one_lt_d9, Real.exp_pos 1]

/-- Upper bound `e^0.11 ≤ 1 / 0.89`, from `1 - x ≤ e^(-x)`. -/
lemma exp_point_11_le : Real.exp 0.11 ≤ 1 / 0.89 := by
  have h := Real.add_one_le_exp (-0.11 : ℝ)
  rw [Real.exp_neg] at h
  have h9 : (0.89 : ℝ) ≤ (Real.exp 0.11)⁻¹ := by linarith
  have h10 := inv_anti₀ (by norm_num : (0 : ℝ) < 0.89) h9
  rw [inv_inv] at h10
  rw [one_div]
  exact h10

/-- Lower bound `1.13 ≤ e^0.13`, from `x + 1 ≤ e^x`. -/
lemma exp_point_13_ge : (1.13 : ℝ) ≤ Real.exp 0.13 := by
  have h := Real.add_one_le_exp (0.13 : ℝ)
  linarith

/-- Lower bound on the logarithm of the example's softmax denominator. -/
lemma log_example_denom_gt : (2.22 : ℝ) < Real.log (Real.exp 2 + 2) := by
  have hs : (0 : ℝ) < Real.exp 2 + 2 := by positivity
  rw [Real.lt_log_iff_exp_lt hs]
  have he : Real.exp 2.22 = Real.exp 2 * (Real.exp 0.11 * Real.exp 0.11) := by
    rw [← Real.exp_add, ← Real.exp_add]; norm_num
  rw [he]
  have hp : (0 : ℝ) < Real.exp 0.11 := Real.exp_pos _
  nlinarith [mul_le_mul exp_point_11_le exp_point_11_le hp.le
      (by norm_num : (0 : ℝ) ≤ 1 / 0.89),
    exp_two_gt, exp_two_lt, Real.exp_pos 2, hp]

/-- Upper bound on the logarithm of the example's softmax denominator. -/
lemma log_example_denom_lt : Real.log (Real.exp 2 + 2) < 2.26 := by
  have hs : (0 : ℝ) < Real.exp 2 + 2 := by positivity
  rw [Real.log_lt_iff_lt_exp hs]
  have he : Real.exp 2.26 = Real.exp 2 * (Real.exp 0.13 * Real.exp 0.13) := by
    rw [← Real.exp_add, ← Real.exp_add]; norm_num
  rw [he]
  nlinarith [exp_point_13_ge, exp_two_gt, exp_two_lt, Real.exp_pos 2,
    Real.exp_pos 0.13]

/-- The vanilla score of the `[2, 0, 0]` example exceeds `0.64` nats. -/
lemma example_entropy_gt : (0.64 : ℝ) < taskEntropy 3 example_slice true := by
  rw [example_entropy_closed]
  have hs : (0 : ℝ) < Real.exp 2 + 2 := by positivity
  have key : 2 * Real.exp 2 / (Real.exp 2 + 2)
      < Real.log (Real.exp 2 + 2) - 0.64 := by
    rw [div_lt_iff₀ hs]
    nlinarith [mul_pos
        (by linarith [log_example_denom_gt] :
          (0 : ℝ) < Real.log (Real.exp 2 + 2) - 2.22) hs,
      exp_two_lt, exp_two_gt]
  linarith

/-- The vanilla score of the `[2, 0, 0]` example is below `0.69` nats. -/
lemma example_entropy_lt : taskEntropy 3 example_slice true < 0.69 := by
  rw [example_entropy_closed]
  have hs : (0 : ℝ) < Real.exp 2 + 2 := by positivity
  have key : Real.log (Real.exp 2 + 2) - 0.69
      < 2 * Real.exp 2 / (Real.exp 2 + 2) := by
    rw [lt_div_iff₀ hs]
    nlinarith [mul_lt_mul_of_pos_right
        (show Real.log (Real.exp 2 + 2) - 0.69 < 1.57 by
          linarith [log_example_denom_lt]) hs,
      exp_two_gt]
  linarith

/-- Claim C2 (amended): in vanilla mode the factor is the scalar `1.0` and
the score is the plain Shannon entropy of the middle-logit softmax; on
middle logits `[2, 0, 0]` that entropy is approximately `0.666` nats (it
lies strictly between `0.64` and `0.69`), not the `0.586` the claim
states. -/
theorem vanilla_score_entropy_and_example :
    (∀ (n : ℕ) (slice : ℕ → ℕ → ℝ),
        taskEntropy n slice true = shannon_entropy_spec n (slice 1))
    ∧ (0.64 : ℝ) < taskEntropy 3 example_slice true
    ∧ taskEntropy 3 example_slice true < 0.69 :=
  ⟨vanilla_score_eq_shannon, example_entropy_gt, example_entropy_lt⟩

/-- Counterexample to claim C2 as stated: on middle logits `[2, 0, 0]` the
vanilla score is not within `0.05` of `0.586` nats — it exceeds `0.64`
(its true value is `≈ 0.6656` nats). -/
theorem vanilla_example_score_not_0586 :
    ¬ |taskEntropy 3 example_slice true - 0.586| ≤ 0.05 := by
  intro h
  have h2 := abs_le.mp h
  have h3 := example_entropy_gt
  linarith

/-- Full specification of `torchMinIdx`: the returned index is in range, the
returned value is the list entry at that index, it is a minimum of the list,
and every strictly earlier entry is strictly larger (first-minimum
semantics). -/
lemma torchMinIdx_spec {α : Type} [LinearOrder α] (d x : α) (xs : List α) :
    (torchMinIdx x xs).2 < (x :: xs).length ∧
    (x :: xs).getD (torchMinIdx x xs).2 d = (torchMinIdx x xs).1 ∧
    (∀ j < (x :: xs).length, (torchMinIdx x xs).1 ≤ (x :: xs).getD j d) ∧
    (∀ j < (torchMinIdx x xs).2, (torchMinIdx x xs).1 < (x :: xs).getD j d) := by
  induction xs generalizing x with
  | nil =>
    refine ⟨Nat.zero_lt_one, List.getD_cons_zero, ?_, ?_⟩
    · intro j hj
      have hj0 : j = 0 := Nat.lt_one_iff.mp hj
      subst hj0
      exact le_of_eq List.getD_cons_zero.symm
    · intro j hj
      exact absurd hj (Nat.not_lt_zero j)
  | cons y ys ih =>
    obtain ⟨ih1, ih2, ih3, ih4⟩ := ih y
    by_cases hlt : (torchMinIdx y ys).1 < x
    · have hdef : torchMinIdx x (y :: ys)
          = ((torchMinIdx y ys).1, (torchMinIdx y ys).2 + 1) := by
        rw [torchMinIdx, if_pos hlt]
      rw [hdef]
      refine ⟨?_, ?_, ?_, ?_⟩
      · exact Nat.succ_lt_succ ih1
      · rw [List.getD_cons_succ]
        exact ih2
      · intro j hj
        cases j with
        | zero => rw [List.getD_cons_zero]; exact hlt.le
        | succ j =>
          rw [List.getD_cons_succ]
          exact ih3 j (Nat.lt_of_succ_lt_succ hj)
      · intro j hj
        cases j with
        | zero => rw [List.getD_cons_zero]; exact hlt
        | succ j =>
          rw [List.getD_cons_succ]
          exact ih4 j (Nat.lt_of_succ_lt_succ hj)
    · have hdef : torchMinIdx x (y :: ys) = (x, 0) := by
        rw [torchMinIdx, if_neg hlt]
      push_neg at hlt
      rw [hdef]
      refine ⟨Nat.succ_pos _, List.getD_cons_zero, ?_, ?_⟩
      · intro j hj
        cases j with
        | zero => rw [List.getD_cons_zero]
        | succ j =>
          rw [List.getD_cons_succ]
          exact le_trans hlt (ih3 j (Nat.lt_of_succ_lt_succ hj))
      · intro j hj
        exact absurd hj (Nat.not_lt_zero j)

/-- Claim C3: on every non-empty list of per-task uncertainties, the Task
Selector (`torch.argmin`, line 71 of `src/entropy.py`) returns an in-range
index attaining the minimum, every index before it holds a strictly larger
value (stable argmin, ties broken by the lowest index), and on the two
examples `[0.9, 0.3, 0.5]` and `[0.3, 0.3, 0.5]` it returns `1` and `0`
respectively. -/
theorem task_selector_stable_argmin (l : List ℝ) (h : l ≠ []) :
    torchArgmin l < l.length ∧
    (∀ j < l.length, l.getD (torchArgmin l) 0 ≤ l.getD j 0) ∧
    (∀ j < torchArgmin l, l.getD j 0 > l.getD (torchArgmin l) 0) ∧
    torchArgmin [(0.9 : ℝ), 0.3, 0.5] = 1 ∧
    torchArgmin [(0.3 : ℝ), 0.3, 0.5] = 0 := by
  obtain ⟨x, xs, rfl⟩ := List.exists_cons_of_ne_nil h
  obtain ⟨h1, h2, h3, h4⟩ := torchMinIdx_spec (0 : ℝ) x xs
  have hargmin : torchArgmin (x :: xs) = (torchMinIdx x xs).2 := rfl
  refine ⟨hargmin ▸ h1, ?_, ?_, ?_, ?_⟩
  · intro j hj
    rw [hargmin, h2]
    exact h3 j hj
  · intro j hj
    rw [hargmin, h2]
    exact h4 j (hargmin ▸ hj)
  · norm_num [torchArgmin, torchMinIdx]
  · norm_num [torchArgmin, torchMinIdx]

/-- Witness for claim C3: the theorem applied to the concrete uncertainty
vector `[0.9, 0.3, 0.5]`, extracting the two example evaluations. -/
theorem task_selector_stable_argmin_witness :
    ([(0.9 : ℝ), 0.3, 0.5] ≠ []) ∧
    torchArgmin [(0.9 : ℝ), 0.3, 0.5] = 1 ∧
    torchArgmin [(0.3 : ℝ), 0.3, 0.5] = 0 :=
  ⟨by simp,
    (task_selector_stable_argmin [(0.9 : ℝ), 0.3, 0.5] (by simp)).2.2.2⟩

/-- Modelled from the spec: `translate_output_CIFAR_classes` lives in the
repository's `FeCAM` module, which is not under `src/`.  Section 4.5: the
global class id is the relative index plus
`predicted_task * classes_per_task(setup)`; for the CIFAR-100 FeCAM setup
with `setup` tasks the external grouping assigns `100 / setup` classes per
task.  Argument order follows the call site in `src/entropy.py`
(relative class, setup, predicted task). -/
def translate_output_CIFAR_classes (relative_class setup task : ℕ) : ℕ :=
  task * (100 / setup) + relative_class

/-- Modelled from the spec: `translate_output_MNIST_classes` lives in the
repository's `FeCAM` module, which is not under `src/`.  Sections 4.5 and 8:
permuted mode keeps the same label space across tasks (identity
translation); split mode partitions the ten digits contiguously, two
classes per task, so task `t` and relative index `r` map to `2 * t + r`. -/
def translate_output_MNIST_classes (relative_class task : ℕ) (mode : String) : ℕ :=
  if mode = "permuted" then relative_class else 2 * task + relative_class

/-- The dataset dispatch of `src/entropy.py` lines 80-90: CIFAR and the two
MNIST variants are translated, any other dataset name raises
`ValueError("Wrong name of the dataset!")`, modelled as an `Except` error. -/
def class_translation_dispatch (dataset : String) (setup relative_class task : ℕ) :
    Except String ℕ :=
  if dataset = "CIFAR100_FeCAM_setup" then
    Except.ok (translate_output_CIFAR_classes relative_class setup task)
  else if dataset ∈ ["PermutedMNIST", "SplitMNIST"] then
    Except.ok (translate_output_MNIST_classes relative_class task
      (if dataset = "PermutedMNIST" then "permuted" else "split"))
  else Except.error ("Wrong name of the dataset!")

/-- The task selected for one sample (`src/entropy.py` lines 46-71): the
argmin over the per-candidate-task uncertainty scores.  `slice t slot i`
is entry `i` of row `slot` of candidate task `t`'s logits for the sample. -/
noncomputable def sample_task_prediction (T n : ℕ) (slice : ℕ → ℕ → ℕ → ℝ)
    (vanilla : Bool) : ℕ :=
  torchArgmin ((List.range T).map (fun t => taskEntropy n (slice t) vanilla))

/-- The relative (head-local) class predicted for one sample
(`src/entropy.py` lines 74-78): the argmax of the selected task's middle
logits (slot 1). -/
noncomputable def sample_relative_class (T n : ℕ) (slice : ℕ → ℕ → ℕ → ℝ)
    (vanilla : Bool) : ℕ :=
  torchArgmax ((List.range n).map
    (fun o => slice (sample_task_prediction T n slice vanilla) 1 o))

/-- Task and translated class prediction for one sample (`src/entropy.py`
lines 46-91, body of the per-sample loop). -/
noncomputable def samplePrediction (T n : ℕ) (slice : ℕ → ℕ → ℕ → ℝ)
    (setup : ℕ) (dataset : String) (vanilla : Bool) : Except String (ℕ × ℕ) :=
  match class_translation_dispatch dataset setup
      (sample_relative_class T n slice vanilla)
      (sample_task_prediction T n slice vanilla) with
  | Except.error e => Except.error e
  | Except.ok c => Except.ok (sample_task_prediction T n slice vanilla, c)

/-- The sample loop: apply `f` to each index in order, collecting results;
an exception raised at any sample aborts the whole computation, exactly as
the `for` loop with `raise` in the source. -/
def run_loop {α : Type} (f : ℕ → Except String α) : List ℕ → Except String (List α)
  | [] => Except.ok []
  | s :: rest =>
    match f s with
    | Except.error e => Except.error e
    | Except.ok p =>
      match run_loop f rest with
      | Except.error e => Except.error e
      | Except.ok ps => Except.ok (p :: ps)

/-- `get_task_and_class_prediction_based_on_logits` of `src/entropy.py`:
`logits t s slot i` is the `(task, sample, slot, output)` logits tensor with
extents `T`, `S`, `3`, `n`; returns the per-sample predicted tasks and
predicted (global) classes, positions aligned. -/
noncomputable def get_task_and_class_prediction_based_on_logits
    (T S n : ℕ) (logits : ℕ → ℕ → ℕ → ℕ → ℝ) (setup : ℕ) (dataset : String)
    (vanilla : Bool) : Except String (List ℕ × List ℕ) :=
  match run_loop (fun s => samplePrediction T n
      (fun t slot o => logits t s slot o) setup dataset vanilla)
      (List.range S) with
  | Except.error e => Except.error e
  | Except.ok preds => Except.ok (preds.map Prod.fst, preds.map Prod.snd)

/-- The recognized dataset names of the dispatch. -/
def recognized_datasets : List String :=
  ["CIFAR100_FeCAM_setup", "PermutedMNIST", "SplitMNIST"]

/-- The pure translation applied on the recognized branches of the
dispatch (same branch structure as `class_translation_dispatch`). -/
def translate_recognized (dataset : String) (setup relative_class task : ℕ) : ℕ :=
  if dataset = "CIFAR100_FeCAM_setup" then
    translate_output_CIFAR_classes relative_class setup task
  else
    translate_output_MNIST_classes relative_class task
      (if dataset = "PermutedMNIST" then "permuted" else "split")

/-- The global class predicted for one sample when the dataset is
recognized. -/
noncomputable def sample_class_prediction (T n : ℕ) (slice : ℕ → ℕ → ℕ → ℝ)
    (setup : ℕ) (dataset : String) (vanilla : Bool) : ℕ :=
  translate_recognized dataset setup
    (sample_relative_class T n slice vanilla)
    (sample_task_prediction T n slice vanilla)

/-- On a recognized dataset the dispatch succeeds with the pure
translation. -/
lemma dispatch_recognized (dataset : String) (setup relative_class task : ℕ)
    (hd : dataset ∈ recognized_datasets) :
    class_translation_dispatch dataset setup relative_class task
      = Except.ok (translate_recognized dataset setup relative_class task) := by
  unfold recognized_datasets at hd
  simp only [List.mem_cons, List.not_mem_nil, or_false] at hd
  unfold class_translation_dispatch translate_recognized
  rcases hd with h | h | h <;> subst h <;> rfl

/-- On an unrecognized dataset the dispatch raises the source's
`ValueError`. -/
lemma dispatch_unrecognized (dataset : String) (setup relative_class task : ℕ)
    (hd : dataset ∉ recognized_datasets) :
    class_translation_dispatch dataset setup relative_class task
      = Except.error ("Wrong name of the dataset!") := by
  unfold recognized_datasets at hd
  simp only [List.mem_cons, List.not_mem_nil, or_false, not_or] at hd
  obtain ⟨h1, h2, h3⟩ := hd
  unfold class_translation_dispatch
  rw [if_neg h1, if_neg (by simp [h2, h3])]

/-- One sample's prediction on a recognized dataset. -/
lemma samplePrediction_recognized (T n : ℕ) (slice : ℕ → ℕ → ℕ → ℝ)
    (setup : ℕ) (dataset : String) (vanilla : Bool)
    (hd : dataset ∈ recognized_datasets) :
    samplePrediction T n slice setup dataset vanilla
      = Except.ok (sample_task_prediction T n slice vanilla,
          sample_class_prediction T n slice setup dataset vanilla) := by
  unfold samplePrediction sample_class_prediction
  rw [dispatch_recognized _ _ _ _ hd]

/-- One sample's prediction on an unrecognized dataset. -/
lemma samplePrediction_unrecognized (T n : ℕ) (slice : ℕ → ℕ → ℕ → ℝ)
    (setup : ℕ) (dataset : String) (vanilla : Bool)
    (hd : dataset ∉ recognized_datasets) :
    samplePrediction T n slice setup dataset vanilla
      = Except.error ("Wrong name of the dataset!") := by
  unfold samplePrediction
  rw [dispatch_unrecognized _ _ _ _ hd]

/-- If `f` succeeds pointwise with values `g`, the loop returns the mapped
list. -/
lemma run_loop_ok {α : Type} (f : ℕ → Except String α) (g : ℕ → α)
    (l : List ℕ) (h : ∀ s ∈ l, f s = Except.ok (g s)) :
    run_loop f l = Except.ok (l.map g) := by
  induction l with
  | nil => rfl
  | cons a rest ih =>
    have ha := h a (List.mem_cons_self a rest)
    have hrest := ih (fun s hs => h s (List.mem_cons_of_mem a hs))
    simp [run_loop, ha, hrest]

/-- If `f` fails on the head element, the whole loop fails with that
error. -/
lemma run_loop_error_head {α : Type} (f : ℕ → Except String α) (e : String)
    (a : ℕ) (rest : List ℕ) (hf : f a = Except.error e) :
    run_loop f (a :: rest) = Except.error e := by
  simp [run_loop, hf]

/-- Closed form of the whole prediction routine on a recognized dataset:
no error, and the two lists hold each sample's task and class prediction
computed from that sample's own slice of the logits tensor. -/
lemma prediction_recognized_closed_form (T S n : ℕ)
    (logits : ℕ → ℕ → ℕ → ℕ → ℝ) (setup : ℕ) (dataset : String)
    (vanilla : Bool) (hd : dataset ∈ recognized_datasets) :
    get_task_and_class_prediction_based_on_logits T S n logits setup dataset
        vanilla
      = Except.ok
          ((List.range S).map (fun s => sample_task_prediction T n
            (fun t slot o => logits t s slot o) vanilla),
           (List.range S).map (fun s => sample_class_prediction T n
            (fun t slot o => logits t s slot o) setup dataset vanilla)) := by
  unfold get_task_and_class_prediction_based_on_logits
  rw [run_loop_ok _
    (fun s => (sample_task_prediction T n (fun t slot o => logits t s slot o)
        vanilla,
      sample_class_prediction T n (fun t slot o => logits t s slot o) setup
        dataset vanilla))
    _ (fun s _ => samplePrediction_recognized T n _ setup dataset vanilla hd)]
  simp [List.map_map, Function.comp]

/-- On an unrecognized dataset the routine fails on the very first sample
(when there is one) with the source's error, before any translation. -/
lemma prediction_unrecognized_error (T S n : ℕ)
    (logits : ℕ → ℕ → ℕ → ℕ → ℝ) (setup : ℕ) (dataset : String)
    (vanilla : Bool) (hd : dataset ∉ recognized_datasets) (hS : 0 < S) :
    get_task_and_class_prediction_based_on_logits T S n logits setup dataset
        vanilla
      = Except.error ("Wrong name of the dataset!") := by
  obtain ⟨k, rfl⟩ : ∃ k, S = k + 1 :=
    ⟨S - 1, (Nat.succ_pred_eq_of_pos hS).symm⟩
  unfold get_task_and_class_prediction_based_on_logits
  rw [List.range_succ_eq_map,
    run_loop_error_head _ _ _ _
      (samplePrediction_unrecognized T n _ setup dataset vanilla hd)]

/-- `getD` on a mapped range list: the `s`-th entry is `g s` in range and
the default out of range. -/
lemma getD_map_range {β : Type} (g : ℕ → β) (d : β) (S s : ℕ) :
    ((List.range S).map g).getD s d = if s < S then g s else d := by
  rw [List.getD_eq_getElem?_getD, List.getElem?_map]
  by_cases h : s < S
  · rw [List.getElem?_range h]
    simp [h]
  · rw [List.getElem?_eq_none (by simpa using Nat.le_of_not_lt h)]
    simp [h]

/-- Claim C6: on a recognized dataset, each sample's Class Prediction is the
dataset translation applied to the argmax of the predicted task's MIDDLE
logits — slot index `1`, not the lower (0) or upper (2) slot — together
with the predicted task id. -/
theorem class_prediction_from_middle_argmax (T S n : ℕ)
    (logits : ℕ → ℕ → ℕ → ℕ → ℝ) (setup : ℕ) (dataset : String)
    (vanilla : Bool) (s : ℕ) (hs : s < S)
    (hd : dataset ∈ recognized_datasets) :
    (get_task_and_class_prediction_based_on_logits T S n logits setup dataset
        vanilla).map (fun r => r.2.getD s 0)
      = Except.ok (translate_recognized dataset setup
          (torchArgmax ((List.range n).map (fun o =>
            logits (sample_task_prediction T n
              (fun t slot o2 => logits t s slot o2) vanilla) s 1 o)))
          (sample_task_prediction T n (fun t slot o => logits t s slot o)
            vanilla)) := by
  rw [prediction_recognized_closed_form T S n logits setup dataset vanilla hd]
  simp only [Except.map]
  rw [getD_map_range, if_pos hs]
  rfl

/-- Witness for claim C6 on a concrete one-task, one-sample, one-output
instance over the PermutedMNIST dataset. -/
theorem class_prediction_from_middle_argmax_witness :
    (0 < 1) ∧ ("PermutedMNIST" ∈ recognized_datasets) ∧
    (get_task_and_class_prediction_based_on_logits 1 1 1 (fun _ _ _ _ => 0) 1
        "PermutedMNIST" false).map (fun r => r.2.getD 0 0)
      = Except.ok (translate_recognized "PermutedMNIST" 1
          (torchArgmax ((List.range 1).map (fun _ => (0 : ℝ))))
          (sample_task_prediction 1 1 (fun _ _ _ => (0 : ℝ)) false)) :=
  ⟨Nat.one_pos, by simp [recognized_datasets],
    class_prediction_from_middle_argmax 1 1 1 (fun _ _ _ _ => 0) 1
      "PermutedMNIST" false 0 Nat.one_pos (by simp [recognized_datasets])⟩

/-- Claim C7 (amended): on an unrecognized dataset name the prediction
routine fails with the source's `ValueError` as soon as there is at least
one sample, before any fallback class translation. -/
theorem unknown_dataset_fails (T S n : ℕ) (logits : ℕ → ℕ → ℕ → ℕ → ℝ)
    (setup : ℕ) (dataset : String) (vanilla : Bool)
    (hd : dataset ∉ recognized_datasets) (hS : 0 < S) :
    get_task_and_class_prediction_based_on_logits T S n logits setup dataset
        vanilla
      = Except.error ("Wrong name of the dataset!") :=
  prediction_unrecognized_error T S n logits setup dataset vanilla hd hS

/-- Witness for claim C7 on the concrete unsupported dataset name
`SubsetImageNet` (listed in the source's comments but not dispatched). -/
theorem unknown_dataset_fails_witness :
    ("SubsetImageNet" ∉ recognized_datasets) ∧ 0 < 1 ∧
    get_task_and_class_prediction_based_on_logits 1 1 1 (fun _ _ _ _ => 0) 1
        "SubsetImageNet" false
      = Except.error ("Wrong name of the dataset!") :=
  ⟨by simp [recognized_datasets], Nat.one_pos,
    unknown_dataset_fails 1 1 1 (fun _ _ _ _ => 0) 1 "SubsetImageNet" false
      (by simp [recognized_datasets]) Nat.one_pos⟩

/-- Counterexample to claim C7 as stated: on a logits tensor with zero
samples the per-sample loop never runs, so an unrecognized dataset name
does NOT make the operation fail — it returns empty predictions. -/
theorem unknown_dataset_zero_samples_ok :
    get_task_and_class_prediction_based_on_logits 1 0 1 (fun _ _ _ _ => 0) 1
        "SubsetImageNet" false = Except.ok ([], []) ∧
    get_task_and_class_prediction_based_on_logits 1 0 1 (fun _ _ _ _ => 0) 1
        "SubsetImageNet" false ≠ Except.error ("Wrong name of the dataset!") := by
  constructor
  · rfl
  · intro h
    exact Except.noConfusion h

/-- Claim C10: the predicted task and predicted class of sample `s` depend
only on sample `s`'s own slice of the logits tensor — two tensors agreeing
on that slice (all tasks, all three slots, all outputs) yield identical
predictions at position `s`, whatever the other samples hold. -/
theorem per_sample_independence (T S n : ℕ)
    (logits1 logits2 : ℕ → ℕ → ℕ → ℕ → ℝ) (setup : ℕ) (dataset : String)
    (vanilla : Bool) (s : ℕ)
    (h : ∀ t slot o, logits1 t s slot o = logits2 t s slot o) :
    (get_task_and_class_prediction_based_on_logits T S n logits1 setup
        dataset vanilla).map (fun r => (r.1.getD s 0, r.2.getD s 0))
      = (get_task_and_class_prediction_based_on_logits T S n logits2 setup
          dataset vanilla).map (fun r => (r.1.getD s 0, r.2.getD s 0)) := by
  have hslice : (fun t slot o => logits1 t s slot o)
      = (fun t slot o => logits2 t s slot o) := by
    funext t slot o
    exact h t slot o
  by_cases hd : dataset ∈ recognized_datasets
  · rw [prediction_recognized_closed_form T S n logits1 setup dataset vanilla
        hd,
      prediction_recognized_closed_form T S n logits2 setup dataset vanilla
        hd]
    simp only [Except.map]
    have h1 : ((List.range S).map (fun q => sample_task_prediction T n
          (fun t slot o => logits1 t q slot o) vanilla)).getD s 0
        = ((List.range S).map (fun q => sample_task_prediction T n
            (fun t slot o => logits2 t q slot o) vanilla)).getD s 0 := by
      rw [getD_map_range, getD_map_range]
      by_cases hsS : s < S
      · rw [if_pos hsS, if_pos hsS, hslice]
      · rw [if_neg hsS, if_neg hsS]
    have h2 : ((List.range S).map (fun q => sample_class_prediction T n
          (fun t slot o => logits1 t q slot o) setup dataset
          vanilla)).getD s 0
        = ((List.range S).map (fun q => sample_class_prediction T n
            (fun t slot o => logits2 t q slot o) setup dataset
            vanilla)).getD s 0 := by
      rw [getD_map_range, getD_map_range]
      by_cases hsS : s < S
      · rw [if_pos hsS, if_pos hsS, hslice]
      · rw [if_neg hsS, if_neg hsS]
    rw [h1, h2]
  · rcases Nat.eq_zero_or_pos S with hS | hS
    · subst hS
      rfl
    · rw [prediction_unrecognized_error T S n logits1 setup dataset vanilla
          hd hS,
        prediction_unrecognized_error T S n logits2 setup dataset vanilla
          hd hS]

/-- Witness for claim C10 on a concrete pair of (equal) logits tensors. -/
theorem per_sample_independence_witness :
    (∀ (t slot o : ℕ),
        (fun _ _ _ _ => (0 : ℝ)) t 0 slot o
          = (fun _ _ _ _ => (0 : ℝ)) t 0 slot o) ∧
    (get_task_and_class_prediction_based_on_logits 2 1 1 (fun _ _ _ _ => 0) 2
        "SplitMNIST" false).map (fun r => (r.1.getD 0 0, r.2.getD 0 0))
      = (get_task_and_class_prediction_based_on_logits 2 1 1
          (fun _ _ _ _ => 0) 2 "SplitMNIST" false).map
          (fun r => (r.1.getD 0 0, r.2.getD 0 0)) :=
  ⟨fun _ _ _ => rfl,
    per_sample_independence 2 1 1 (fun _ _ _ _ => 0) (fun _ _ _ _ => 0) 2
      "SplitMNIST" false 0 (fun _ _ _ => rfl)⟩

/-- The declared parameter shapes of `AlexNet` for the `cifar` architecture
(`src/VanillaNets/AlexNet.py`, `_architectures`): five convolution
weight/bias pairs followed by three fully-connected weight/bias pairs, the
last pair sized by `num_classes`. -/
def alexnet_param_shapes (num_classes : ℕ) : List (List ℕ) :=
  [[96, 3, 11, 11], [96],
   [256, 96, 5, 5], [256],
   [384, 256, 3, 3], [384],
   [384, 384, 3, 3], [384],
   [256, 384, 3, 3], [256],
   [4096, 9216], [4096],
   [4096, 4096], [4096],
   [num_classes, 4096], [num_classes]]

/-- `np.all(np.equal(s, w))` on two one-dimensional integer sequences, with
numpy's broadcasting: equal lengths compare elementwise; a length-one
operand is broadcast against every element of the other; any other length
combination is not broadcastable, so `np.equal` itself raises — since that
too aborts the call, it is folded into the failing (`false`) case.
`np.all` of an empty comparison is `True`. -/
def np_equal_all (s w : List ℕ) : Bool :=
  if s.length = w.length then (s.zip w).all (fun q => q.1 == q.2)
  else if s.length = 1 then w.all (fun x => x == s.headD 0)
  else if w.length = 1 then s.all (fun x => x == w.headD 0)
  else false

/-- The weight-shape gate at the top of `AlexNet.forward`
(`src/VanillaNets/AlexNet.py`, lines 186-192) for an explicitly supplied
weight collection, each weight represented by its shape:
`assert len(weights) == len(shapes)` followed, entry by entry, by
`assert np.all(np.equal(s, list(weights[i].shape)))` — the per-entry
comparison uses numpy's broadcasting `np.equal`, not exact tuple equality.
A failing assert (named ShapeMismatch by the specification) aborts the
call before the network body runs. -/
def alexnet_forward_weight_check (num_classes : ℕ)
    (weight_shapes : List (List ℕ)) : Except String Unit :=
  if weight_shapes.length = (alexnet_param_shapes num_classes).length then
    if ((alexnet_param_shapes num_classes).zip weight_shapes).all
        (fun sw => np_equal_all sw.1 sw.2) then
      Except.ok ()
    else Except.error ("ShapeMismatch")
  else Except.error ("ShapeMismatch")

/-- A malformed weight collection for a ten-class network: every entry has
exactly the declared shape except the last one — the output bias, declared
`[10]` — which is supplied as a two-dimensional `10 × 10` tensor. -/
def broadcast_mismatched_weight_shapes : List (List ℕ) :=
  [[96, 3, 11, 11], [96],
   [256, 96, 5, 5], [256],
   [384, 256, 3, 3], [384],
   [384, 384, 3, 3], [384],
   [256, 384, 3, 3], [256],
   [4096, 9216], [4096],
   [4096, 4096], [4096],
   [10, 4096], [10, 10]]

/-- Claim C8 (code-bug evidence): the shape gate of `AlexNet.forward` does
NOT reject every malformed weight collection.  The declared output-bias
shape `[10]` against a supplied `[10, 10]` tensor broadcasts under
`np.equal` to `[True, True]`, `np.all` passes, and the gate accepts the
collection even though it differs from the declared parameter shapes —
after which `F.linear` silently broadcasts the two-dimensional bias,
contradicting the specification's shape-by-shape equality requirement. -/
theorem alexnet_gate_accepts_broadcast_mismatch :
    broadcast_mismatched_weight_shapes ≠ alexnet_param_shapes 10 ∧
    alexnet_forward_weight_check 10 broadcast_mismatched_weight_shapes
      = Except.ok () := by
  constructor
  · decide
  · rfl

/-- The task-prediction accuracy of `calculate_entropy_and_predict_classes_separately`
(`src/entropy.py`, lines 166-171):
`sum(predicted_tasks == task) * 100.0 / len(predicted_tasks)`, in exact
rational arithmetic. -/
def task_prediction_accuracy (predicted_tasks : List ℕ) (task : ℕ) : ℚ :=
  ((predicted_tasks.countP (fun x => x == task) : ℕ) : ℚ) * 100
    / predicted_tasks.length

/-- The class-prediction accuracy of the same driver (lines 173-176):
`sum(predicted_classes == y_test) * 100.0 / len(y_test)`, positions
compared pairwise, in exact rational arithmetic. -/
def class_prediction_accuracy (predicted_classes y_test : List ℕ) : ℚ :=
  (((predicted_classes.zip y_test).countP (fun q => q.1 == q.2) : ℕ) : ℚ)
    * 100 / y_test.length

/-- The Evaluation Driver loop of
`calculate_entropy_and_predict_classes_separately` (`src/entropy.py`, lines
160-182): for each ground-truth task, run the prediction routine on that
task's test set (`SFor t` samples; the per-task logits produced by the
external hypernetwork/target-network stack are abstracted as `logitsFor`,
the ground-truth labels as `yFor`) and append the row
`[task, task_prediction_accuracy, class_prediction_accuracy]`.  The
`setup` argument of the prediction routine is `number_of_tasks`, exactly as
at the call site. -/
noncomputable def calculate_entropy_and_predict_classes_separately
    (number_of_tasks : ℕ) (SFor : ℕ → ℕ) (n : ℕ) (dataset : String)
    (vanilla : Bool) (logitsFor : ℕ → ℕ → ℕ → ℕ → ℕ → ℝ)
    (yFor : ℕ → List ℕ) : Except String (List (ℕ × ℚ × ℚ)) :=
  run_loop (fun task =>
    match get_task_and_class_prediction_based_on_logits number_of_tasks
        (SFor task) n (logitsFor task) number_of_tasks dataset vanilla with
    | Except.error e => Except.error e
    | Except.ok preds =>
        Except.ok (task, task_prediction_accuracy preds.1 task,
          class_prediction_accuracy preds.2 (yFor task)))
    (List.range number_of_tasks)

/-- Claim C9 (amended): on a recognized dataset the driver emits exactly one
row per ground-truth task `t`, whose accuracies are the matching-sample
fractions MULTIPLIED BY 100 (percentages): the task-prediction entry is
`(count of predicted task == t) / num_samples * 100` and the
class-prediction entry is
`(count of predicted class == ground truth) / num_labels * 100`. -/
theorem driver_emits_percentage_rows (number_of_tasks n : ℕ)
    (SFor : ℕ → ℕ) (dataset : String) (vanilla : Bool)
    (logitsFor : ℕ → ℕ → ℕ → ℕ → ℕ → ℝ) (yFor : ℕ → List ℕ)
    (hd : dataset ∈ recognized_datasets) :
    calculate_entropy_and_predict_classes_separately number_of_tasks SFor n
        dataset vanilla logitsFor yFor
      = Except.ok ((List.range number_of_tasks).map (fun task =>
          (task,
           task_prediction_accuracy ((List.range (SFor task)).map (fun s =>
             sample_task_prediction number_of_tasks n
               (fun t slot o => logitsFor task t s slot o) vanilla)) task,
           class_prediction_accuracy ((List.range (SFor task)).map (fun s =>
             sample_class_prediction number_of_tasks n
               (fun t slot o => logitsFor task t s slot o) number_of_tasks
               dataset vanilla)) (yFor task)))) ∧
    (∀ (pt : List ℕ) (t : ℕ), task_prediction_accuracy pt t
        = ((pt.countP (fun x => x == t) : ℚ) / pt.length) * 100) ∧
    (∀ (pc y : List ℕ), class_prediction_accuracy pc y
        = (((pc.zip y).countP (fun q => q.1 == q.2) : ℚ) / y.length) * 100) := by
  refine ⟨?_, ?_, ?_⟩
  · unfold calculate_entropy_and_predict_classes_separately
    apply run_loop_ok
    intro task _
    rw [prediction_recognized_closed_form number_of_tasks (SFor task) n
      (logitsFor task) number_of_tasks dataset vanilla hd]
  · intro pt t
    unfold task_prediction_accuracy
    ring
  · intro pc y
    unfold class_prediction_accuracy
    ring

/-- Witness for claim C9 on a concrete one-task, one-sample instance over
the SplitMNIST dataset. -/
theorem driver_emits_percentage_rows_witness :
    ("SplitMNIST" ∈ recognized_datasets) ∧
    calculate_entropy_and_predict_classes_separately 1 (fun _ => 1) 1
        "SplitMNIST" false (fun _ _ _ _ _ => 0) (fun _ => [0])
      = Except.ok ((List.range 1).map (fun task =>
          (task,
           task_prediction_accuracy ((List.range 1).map (fun _ =>
             sample_task_prediction 1 1 (fun _ _ _ => (0 : ℝ)) false)) task,
           class_prediction_accuracy ((List.range 1).map (fun _ =>
             sample_class_prediction 1 1 (fun _ _ _ => (0 : ℝ)) 1 "SplitMNIST"
               false)) [0]))) :=
  ⟨by simp [recognized_datasets],
    (driver_emits_percentage_rows 1 1 (fun _ => 1) "SplitMNIST" false
      (fun _ _ _ _ _ => 0) (fun _ => [0])
      (by simp [recognized_datasets])).1⟩

/-- Counterexample to claim C9 as stated: with a single sample whose
predicted task equals the ground-truth task 0, the driver's accuracy value
is 100, not the fraction 1 the claim describes. -/
theorem accuracy_is_percentage_not_fraction :
    task_prediction_accuracy [0] 0 = 100 ∧
    task_prediction_accuracy [0] 0 ≠ 1 := by
  constructor
  · norm_num [task_prediction_accuracy]
  · norm_num [task_prediction_accuracy]
